import Mathlib

/-!
Shallow embedding of wpplugin.py, a command-line tool that searches the
WordPress plugin directory, lets the user pick a result from a paginated
text list, renders an HTML link for it and copies the link to the
clipboard.  Pure string manipulation is embedded directly; the process
boundary (argument vector, network outcome, interactive input lines,
clipboard availability) is made explicit as parameters, and
process-terminating paths are reflected as explicit exit codes.
-/

/-- One search result of the WordPress plugin API: a display name
(HTML-entity-encoded) and a URL slug. -/
structure PluginRecord where
  name : String
  slug : String
deriving DecidableEq

/-- Decoded JSON payload of the search request, reduced to the field the
script reads: the ordered list stored under the key "plugins". -/
structure PluginResponse where
  plugins : List PluginRecord
deriving DecidableEq

/-- Entry "url" of the script's config dictionary. -/
def config_url : String := "https://api.wordpress.org/plugins/info/1.2/"

/-- Entry "pluginurl" of the script's config dictionary. -/
def config_pluginurl : String := "https://de.wordpress.org/plugins/"

/-- Entry "timeout" of the script's config dictionary. -/
def config_timeout : Nat := 20

/-- Model of Python's html.unescape on a character list, restricted to a
representative set of named entities (amp, lt, gt, quot).  An ampersand
followed by a known entity body is replaced by the decoded character;
any other character is copied unchanged.  Faithful to html.unescape on
every string whose entities are among these four. -/
def unescapeList : List Char → List Char
  | [] => []
  | '&' :: 'a' :: 'm' :: 'p' :: ';' :: rest => '&' :: unescapeList rest
  | '&' :: 'l' :: 't' :: ';' :: rest => '<' :: unescapeList rest
  | '&' :: 'g' :: 't' :: ';' :: rest => '>' :: unescapeList rest
  | '&' :: 'q' :: 'u' :: 'o' :: 't' :: ';' :: rest => '"' :: unescapeList rest
  | c :: rest => c :: unescapeList rest

/-- Model of Python's html.unescape on strings (see unescapeList). -/
def html_unescape (s : String) : String := String.mk (unescapeList s.data)

/-- Model of Python string slicing s[:n]: the first n characters. -/
def str_take (s : String) (n : Nat) : String := String.mk (s.data.take n)

/-- Model of Python str.strip with no argument: remove leading and
trailing whitespace characters. -/
def str_strip (s : String) : String :=
  String.mk (((s.data.dropWhile Char.isWhitespace).reverse.dropWhile
    Char.isWhitespace).reverse)

/-- Model of Python str.lower restricted to ASCII: map each character to
its lower-case form.  (Python also lowers some non-ASCII letters; no
claim depends on those.) -/
def str_lower (s : String) : String := String.mk (s.data.map Char.toLower)

/-- Model of Python str.isdigit restricted to ASCII: nonempty and all
characters are decimal digits.  (Python also accepts some non-ASCII
digit characters; no claim depends on those.) -/
def str_isdigit (s : String) : Bool := !s.data.isEmpty && s.data.all Char.isDigit

/-- Model of Python int() on a string of decimal digits; the script only
applies it to inputs that satisfy str_isdigit. -/
def py_int (s : String) : Nat :=
  s.data.foldl (fun n c => n * 10 + (c.toNat - '0'.toNat)) 0

/-- Model of the Python format specifier {i:>2}: right-align in a field
of width 2, padding with spaces; longer strings are kept whole. -/
def rjust2 (s : String) : String :=
  if s.length < 2 then String.mk (List.replicate (2 - s.length) ' ') ++ s else s

/-- Model of Python list slicing l[start:stop] for 0 ≤ start, stop. -/
def pySlice (l : List PluginRecord) (start stop : Nat) : List PluginRecord :=
  (l.take stop).drop start

/-- Body of the loop of list_plugins for one plugin at 1-based ordinal i:
the ordinal right-aligned to width 2, a space, and the entity-decoded
name; a name longer than 60 characters is cut to its first 60 characters
before decoding and the source's ellipsis marker is appended.  The
source file stores that marker literally as the three characters
U+00E2 U+20AC U+00A6 (a UTF-8 horizontal-ellipsis byte sequence decoded
once too often), so the very same three characters appear here. -/
def entryLine (i : Nat) (name : String) : String :=
  if name.length > 60 then
    rjust2 (toString i) ++ " " ++ html_unescape (str_take name 60) ++ " â€¦\n"
  else
    rjust2 (toString i) ++ " " ++ html_unescape name ++ "\n"

/-- The lines accumulated by the loop of list_plugins, with i the running
1-based ordinal. -/
def pluginLines : Nat → List PluginRecord → List String
  | _, [] => []
  | i, p :: rest => entryLine i p.name :: pluginLines (i + 1) rest

/-- Concatenation of the accumulated lines (the loop's output += line). -/
def concatLines : List String → String
  | [] => ""
  | l :: ls => l ++ concatLines ls

/-- list_plugins(jsonlist, start, stop): starts from "\n" and appends one
formatted line per plugin of the slice jsonlist["plugins"][start:stop],
numbering from start+1. -/
def list_plugins (jsonlist : PluginResponse) (start stop : Nat) : String :=
  "\n" ++ concatLines (pluginLines (start + 1) (pySlice jsonlist.plugins start stop))

/-- ask_user_prompt(passes): the instruction text shown before reading
input; the next-10 option is shown only while passes < 3. -/
def ask_user_prompt (passes : Nat) : String :=
  let prompt := "   Enter plugin number or just press enter for first match.\n"
  if passes < 3 then
    prompt ++ "   Enter [n] for next 10 plugins, enter [q] to abort.\n\n"
  else
    prompt ++ "   Enter [q] to abort.\n\n"

/-- Outcome of one pass of the while loop of let_user_select: a selection
(breaking the loop), a quit (sys.exit(1) after printing an abort notice),
showing the next page (continue), or an invalid-input notice (continue).
The next and invalid outcomes carry the updated value of passes; next
also carries the page text printed. -/
inductive StepOut where
  | select (idx : Nat)
  | quit
  | next (passes : Nat) (page : String)
  | invalid (passes : Nat)
deriving DecidableEq

/-- One pass of the while loop of let_user_select, entered with the given
value of passes and one raw input line.  Mirrors the source order:
strip the input, increment passes, compute start and stop from the
incremented passes, then test digit-in-range, empty, "n", "q", else
invalid. -/
def select_step (pluginlist : PluginResponse) (passes : Nat) (raw : String) : StepOut :=
  let howmany := pluginlist.plugins.length
  let user_input := str_strip raw
  let passes2 := passes + 1
  let start := (passes2 - 1) * 10
  let stop := start + 10
  if str_isdigit user_input = true ∧ 1 ≤ py_int user_input ∧ py_int user_input ≤ howmany then
    StepOut.select (py_int user_input - 1)
  else if user_input = "" then
    StepOut.select (1 - 1)
  else if user_input = "n" then
    StepOut.next passes2 (list_plugins pluginlist start stop)
  else if user_input = "q" then
    StepOut.quit
  else
    StepOut.invalid passes2

/-- Initial value of passes in let_user_select: 1, or 3 when fewer than
11 plugins were found. -/
def initPasses (howmany : Nat) : Nat := if howmany < 11 then 3 else 1

/-- Result of the whole selection loop: a zero-based index, or an abort
(exit 1). -/
inductive SelResult where
  | selected (idx : Nat)
  | aborted
deriving DecidableEq

/-- The while loop of let_user_select driven by a list of input lines;
none means the input lines ran out with the loop still prompting. -/
def runSelect (pl : PluginResponse) : Nat → List String → Option SelResult
  | _, [] => none
  | passes, raw :: rest =>
    match select_step pl passes raw with
    | StepOut.select i => some (SelResult.selected i)
    | StepOut.quit => some SelResult.aborted
    | StepOut.next p _ => runSelect pl p rest
    | StepOut.invalid p => runSelect pl p rest

/-- let_user_select as a whole: the first page (indices 0 to 9) is
printed, then the loop runs from initPasses. -/
def let_user_select (pluginlist : PluginResponse) (inputs : List String) : Option SelResult :=
  runSelect pluginlist (initPasses pluginlist.plugins.length) inputs

/-- The pages printed by the loop (by the "n" branch) over a list of
input lines, in order, up to the pass that leaves the loop. -/
def tracePages (pl : PluginResponse) : Nat → List String → List String
  | _, [] => []
  | passes, raw :: rest =>
    match select_step pl passes raw with
    | StepOut.next p page => page :: tracePages pl p rest
    | StepOut.invalid p => tracePages pl p rest
    | _ => []

/-- render_link(response_dict, selection): looks up the selected record
(Python indexing raises IndexError out of bounds, embedded as none),
entity-decodes its full name, and builds the anchor string. -/
def render_link (response_dict : PluginResponse) (selection : Nat) : Option String :=
  match response_dict.plugins[selection]? with
  | none => none
  | some selected =>
    let slug := selected.slug
    let name := html_unescape selected.name
    let url := config_pluginurl
    some ("<a href=\"" ++ url ++ slug ++ "/\"><b>" ++ name ++ "</b></a>")

/-- Result of command-line parsing: the positional argument, or an
immediate process exit with the given status. -/
inductive ArgResult where
  | ok (name : String)
  | exitWith (code : Nat)
deriving DecidableEq

/-- Tests whether a command-line token looks like an option: at least
two characters long and beginning with a dash (argparse treats a lone
dash as positional). -/
def looksLikeOption (a : String) : Bool :=
  match a.data with
  | '-' :: _ :: _ => true
  | _ => false

/-- Model of the argparse parser built in validate_arguments: the flags
-v and --version (printing a version string) and -h and --help (added by
argparse itself) exit with status 0; any other option-like token, or an
argument count different from the exactly one positional declared by
add_argument with nargs one, is a usage error, which argparse reports by
exiting the process with status 2 (documented argparse behavior). -/
def parse_args (argv : List String) : ArgResult :=
  if argv.any (fun a => a == "-v" || a == "--version") then ArgResult.exitWith 0
  else if argv.any (fun a => a == "-h" || a == "--help") then ArgResult.exitWith 0
  else if argv.any looksLikeOption then ArgResult.exitWith 2
  else
    match argv with
    | [name] => ArgResult.ok name
    | _ => ArgResult.exitWith 2

/-- validate_arguments(): parses the argument vector and returns
args.name[0].lower().  Note the source applies only lower(), no
strip(). -/
def validate_arguments (argv : List String) : ArgResult :=
  match parse_args argv with
  | ArgResult.ok name => ArgResult.ok (str_lower name)
  | e => e

/-- Outcome of the single HTTP GET of request_plugins, as seen through
the except clauses of the source: the four requests exception kinds, or
a successful response with parsed JSON body. -/
inductive NetOutcome where
  | httpError
  | connError
  | timeoutError
  | otherError
  | success (resp : PluginResponse)
deriving DecidableEq

/-- Tests whether the network outcome is one of the failure kinds. -/
def isNetFailure : NetOutcome → Bool
  | NetOutcome.success _ => false
  | _ => true

/-- request_plugins(searchterm): issues one GET (no retry) with the
config parameters; each failure kind prints its short diagnostic and
calls sys.exit(1), embedded as an error carrying the exit status and
the printed diagnostic; on success the parsed JSON body is returned. -/
def request_plugins (searchterm : String) (net : NetOutcome) :
    Except (Nat × String) PluginResponse :=
  match net with
  | NetOutcome.httpError => Except.error (1, "HTTP Error")
  | NetOutcome.connError => Except.error (1, "Error Connecting")
  | NetOutcome.timeoutError => Except.error (1, "Timeout Error")
  | NetOutcome.otherError => Except.error (1, "OOps: Something Else")
  | NetOutcome.success resp => Except.ok resp

/-- Observable outcome of one whole process run: the exit status, the
rendered link if one was produced, and whether the clipboard write
succeeded. -/
structure RunResult where
  exitCode : Nat
  link : Option String
  copied : Bool
deriving DecidableEq

/-- main(): validate arguments, request plugins, run the selection loop,
render the link, copy to clipboard (printing the link either way; a
clipboard failure is caught and only changes the message).  An
out-of-bounds index in render_link raises an uncaught IndexError, which
makes the interpreter exit with status 1 and no link.  none means the
scripted input lines ran out with the selection loop still prompting. -/
def run_main (argv : List String) (net : NetOutcome) (inputs : List String)
    (clipOk : Bool) : Option RunResult :=
  match validate_arguments argv with
  | ArgResult.exitWith c => some ⟨c, none, false⟩
  | ArgResult.ok pluginname =>
    match request_plugins pluginname net with
    | Except.error e => some ⟨e.1, none, false⟩
    | Except.ok wp_request =>
      match let_user_select wp_request inputs with
      | none => none
      | some SelResult.aborted => some ⟨1, none, false⟩
      | some (SelResult.selected n) =>
        match render_link wp_request n with
        | none => some ⟨1, none, false⟩
        | some link => some ⟨0, some link, clipOk⟩

/-- Concrete response with 25 identical records, large enough that the
pages at windows 10..19 and 20..29 differ (their ordinals differ). -/
def demo25 : PluginResponse := ⟨List.replicate 25 ⟨"P", "p"⟩⟩

/-- Concrete response with 5 records, matching the out-of-range example
of the specification. -/
def demo5 : PluginResponse := ⟨List.replicate 5 ⟨"P", "p"⟩⟩

/-- Concrete one-record response whose name carries an HTML entity. -/
def demoAkismet : PluginResponse := ⟨[⟨"Akismet &amp; Co", "akismet"⟩]⟩

/-- Concrete response with an empty plugins list (zero search results). -/
def emptyResp : PluginResponse := ⟨[]⟩

/-- Concrete response holding one 61-character name and one short name,
exercising both branches of the listing format. -/
def demoC8 : PluginResponse :=
  ⟨[⟨"0123456789012345678901234567890123456789012345678901234567890", "long"⟩,
    ⟨"Akismet &amp; Co", "akismet"⟩]⟩

/-- Entity decoding never lengthens a character list: each step either
copies one character or contracts an entity to one character. -/
lemma unescapeList_length (cs : List Char) : (unescapeList cs).length ≤ cs.length := by
  induction cs using unescapeList.induct <;> simp [unescapeList] <;> omega

/-- Entity decoding never lengthens a string. -/
lemma html_unescape_length (s : String) : (html_unescape s).length ≤ s.length :=
  unescapeList_length s.data

/-- The while-loop pass on input "n" never selects and never quits: it
increments passes and prints the window (passes * 10, passes * 10 + 10)
computed from the incremented counter. -/
lemma select_step_n (pl : PluginResponse) (p : Nat) :
    select_step pl p "n" = StepOut.next (p + 1) (list_plugins pl (p * 10) (p * 10 + 10)) := by
  simp only [select_step]
  rw [(by decide : str_strip "n" = "n")]
  rw [if_neg (fun hc => absurd hc.1 (by decide))]
  rw [if_neg (by decide : ¬("n" : String) = "")]
  rw [if_pos rfl]
  rw [Nat.add_sub_cancel]

/-- The while-loop pass on empty input selects index 0. -/
lemma select_step_empty (pl : PluginResponse) (p : Nat) :
    select_step pl p "" = StepOut.select 0 := by
  simp only [select_step]
  rw [(by decide : str_strip "" = "")]
  rw [if_neg (fun hc => absurd hc.1 (by decide))]
  rw [if_pos rfl]

/-- A string of decimal digits is distinct from the empty string and
from the commands "n" and "q". -/
lemma str_isdigit_ne_commands (t : String) (h : str_isdigit t = true) :
    t ≠ "" ∧ t ≠ "n" ∧ t ≠ "q" := by
  refine ⟨?_, ?_, ?_⟩ <;> rintro rfl <;> exact absurd h (by decide)

/-- Closed form of the pages printed by a run of k consecutive "n"
inputs starting at pass counter p: the j-th page printed is the window
of ten starting at (p + j) * 10. -/
lemma tracePages_n_replicate (pl : PluginResponse) (p k : Nat) :
    tracePages pl p (List.replicate k "n")
      = (List.range k).map (fun j => list_plugins pl ((p + j) * 10) ((p + j) * 10 + 10)) := by
  induction k generalizing p with
  | zero => simp [tracePages]
  | succ k ih =>
      rw [List.replicate_succ, List.range_succ_eq_map]
      simp only [tracePages, select_step_n pl p, List.map_cons, List.map_map]
      refine congrArg₂ (· :: ·) (by simp) ?_
      rw [ih (p + 1)]
      refine List.map_congr_left (fun j _ => ?_)
      simp only [Function.comp_apply, Nat.succ_eq_add_one]
      rw [show p + 1 + j = p + (j + 1) from by omega]

/-- A window that starts at or past the end of the plugin list produces
the empty listing (just the leading newline). -/
lemma list_plugins_past_end (pl : PluginResponse) (start stop : Nat)
    (h : pl.plugins.length ≤ start) :
    list_plugins pl start stop = "\n" := by
  unfold list_plugins pySlice
  rw [List.drop_eq_nil_of_le (by simpa using Nat.le_trans (Nat.min_le_right _ _) h)]
  rfl

/-- pluginLines yields one line per record of its input. -/
lemma pluginLines_length (l : List PluginRecord) (i : Nat) :
    (pluginLines i l).length = l.length := by
  induction l generalizing i with
  | nil => rfl
  | cons p rest ih => simp [pluginLines, ih]

/-- The k-th line of pluginLines is the formatted entry of the k-th
record, with ordinal i + k. -/
lemma pluginLines_getElem (l : List PluginRecord) (i k : Nat) :
    (pluginLines i l)[k]? = Option.map (fun p => entryLine (i + k) p.name) l[k]? := by
  induction l generalizing i k with
  | nil => simp [pluginLines]
  | cons p rest ih =>
      cases k with
      | zero => simp [pluginLines]
      | succ k =>
          simp only [pluginLines, List.getElem?_cons_succ, ih (i + 1) k]
          rw [show i + 1 + k = i + (k + 1) from by omega]

/-- A run whose arguments parse and whose single GET fails exits with
status 1, producing no link and no clipboard write. -/
lemma run_main_netfail (argv : List String) (t : String) (net : NetOutcome)
    (inputs : List String) (clip : Bool)
    (h1 : validate_arguments argv = ArgResult.ok t) (h2 : isNetFailure net = true) :
    run_main argv net inputs clip = some ⟨1, none, false⟩ := by
  unfold run_main
  rw [h1]
  cases net with
  | success resp => exact absurd h2 (by simp [isNetFailure])
  | httpError => rfl
  | connError => rfl
  | timeoutError => rfl
  | otherError => rfl

/-- A run whose argument parsing exits does so before any network or
interactive step, with the parser's status and no link. -/
lemma run_main_validate_exit (argv : List String) (net : NetOutcome)
    (inputs : List String) (clip : Bool) (c : Nat)
    (h : validate_arguments argv = ArgResult.exitWith c) :
    run_main argv net inputs clip = some ⟨c, none, false⟩ := by
  unfold run_main
  rw [h]

/-- A run that reaches the selection loop and aborts with "q" exits
with status 1 and no link. -/
lemma run_main_abort (argv : List String) (t : String) (resp : PluginResponse)
    (inputs : List String) (clip : Bool)
    (h1 : validate_arguments argv = ArgResult.ok t)
    (h2 : let_user_select resp inputs = some SelResult.aborted) :
    run_main argv (NetOutcome.success resp) inputs clip = some ⟨1, none, false⟩ := by
  unfold run_main
  rw [h1]
  simp only [request_plugins]
  rw [h2]

/-- A completed run exits with status 0 exactly when it produced a link
or argument parsing ended the process with status 0 (version or help
flag). -/
lemma run_main_exit_zero_iff (argv : List String) (net : NetOutcome)
    (inputs : List String) (clip : Bool) (r : RunResult)
    (h : run_main argv net inputs clip = some r) :
    r.exitCode = 0 ↔ (r.link.isSome = true ∨ parse_args argv = ArgResult.exitWith 0) := by
  unfold run_main at h
  have hv : validate_arguments argv
      = (match parse_args argv with
         | ArgResult.ok name => ArgResult.ok (str_lower name)
         | e => e) := rfl
  cases hp : parse_args argv with
  | exitWith c =>
      rw [hv, hp] at h
      obtain rfl := Option.some.inj h
      simp [ArgResult.exitWith.injEq]
  | ok name =>
      rw [hv, hp] at h
      cases net with
      | httpError =>
          obtain rfl := Option.some.inj h
          simp
      | connError =>
          obtain rfl := Option.some.inj h
          simp
      | timeoutError =>
          obtain rfl := Option.some.inj h
          simp
      | otherError =>
          obtain rfl := Option.some.inj h
          simp
      | success resp =>
          simp only [request_plugins] at h
          cases hs : let_user_select resp inputs with
          | none => rw [hs] at h; exact absurd h (by simp)
          | some sel =>
              rw [hs] at h
              cases sel with
              | aborted =>
                  obtain rfl := Option.some.inj h
                  simp
              | selected n =>
                  dsimp only at h
                  cases hr : render_link resp n with
                  | none =>
                      rw [hr] at h
                      obtain rfl := Option.some.inj h
                      simp
                  | some link =>
                      rw [hr] at h
                      obtain rfl := Option.some.inj h
                      simp

/-- C1 (counterexample): the claim that an invalid input leaves the
page window unchanged is false.  With 25 plugins and initial pass
counter 1, the input "x" is rejected with an invalid-input notice, but
a subsequent "n" then shows the window of indices 20 to 29, while "n"
entered directly after the initial page shows indices 10 to 19 — and
those two pages differ. -/
theorem C1_invalid_input_window_counterexample :
    select_step demo25 1 "x" = StepOut.invalid 2
    ∧ tracePages demo25 1 ["x", "n"] = [list_plugins demo25 20 30]
    ∧ tracePages demo25 1 ["n"] = [list_plugins demo25 10 20]
    ∧ list_plugins demo25 20 30 ≠ list_plugins demo25 10 20 := by decide

/-- C1 (amended): an input whose stripped form is not an in-range
number, not empty, not "n" and not "q" is rejected with an
invalid-input notice, but it advances the pass counter by one, so the
page window used by a subsequent "n" starts 10 entries later than the
window that same "n" would have shown without the invalid input. -/
theorem C1_invalid_input_advances_window (pl : PluginResponse) (p : Nat) (s : String)
    (h1 : ¬(str_isdigit (str_strip s) = true ∧ 1 ≤ py_int (str_strip s)
        ∧ py_int (str_strip s) ≤ pl.plugins.length))
    (h2 : str_strip s ≠ "") (h3 : str_strip s ≠ "n") (h4 : str_strip s ≠ "q") :
    select_step pl p s = StepOut.invalid (p + 1)
    ∧ tracePages pl p [s, "n"] = [list_plugins pl ((p + 1) * 10) ((p + 1) * 10 + 10)]
    ∧ tracePages pl p ["n"] = [list_plugins pl (p * 10) (p * 10 + 10)] := by
  have hsel : select_step pl p s = StepOut.invalid (p + 1) := by
    simp only [select_step]
    rw [if_neg h1, if_neg h2, if_neg h3, if_neg h4]
  refine ⟨hsel, ?_, ?_⟩
  · simp [tracePages, hsel, select_step_n]
  · simp [tracePages, select_step_n]

/-- C1 (witness): the amended statement instantiated at 25 plugins,
pass counter 1 and input "x". -/
theorem C1_invalid_input_advances_window_witness :
    select_step demo25 1 "x" = StepOut.invalid 2
    ∧ tracePages demo25 1 ["x", "n"] = [list_plugins demo25 20 30]
    ∧ tracePages demo25 1 ["n"] = [list_plugins demo25 10 20] :=
  C1_invalid_input_advances_window demo25 1 "x" (by decide) (by decide)
    (by decide) (by decide)

/-- C2 (confirmed): along a run of consecutive "n" inputs after the
initial page of entries 0 to 9, the j-th page printed is exactly the
ten entries starting at index 10 * (j + 1) — the first "n" shows
entries 10 to 19 — and each pass on "n" increments the counter by one
and shows the window (passes * 10, passes * 10 + 10), a window whose
start is nonnegative, below its stop, and growing by 10 per "n" (for
fewer than 11 plugins the initial counter is 3, but every window at or
past index 10 shows the same empty page, so the printed pages agree
with the ten-entries-later reading for every plugin list). -/
theorem C2_next_pages_advance_by_ten (pl : PluginResponse) (k : Nat) :
    tracePages pl (initPasses pl.plugins.length) (List.replicate k "n")
      = (List.range k).map (fun j => list_plugins pl (10 * (j + 1)) (10 * (j + 1) + 10))
    ∧ (∀ p, select_step pl p "n"
        = StepOut.next (p + 1) (list_plugins pl (p * 10) (p * 10 + 10))) := by
  refine ⟨?_, fun p => select_step_n pl p⟩
  rw [tracePages_n_replicate]
  by_cases hlen : pl.plugins.length < 11
  · have hip : initPasses pl.plugins.length = 3 := by simp [initPasses, hlen]
    rw [hip]
    refine List.map_congr_left (fun j _ => ?_)
    rw [list_plugins_past_end _ _ _ (by omega), list_plugins_past_end _ _ _ (by omega)]
  · have hip : initPasses pl.plugins.length = 1 := by simp [initPasses, hlen]
    rw [hip]
    refine List.map_congr_left (fun j _ => ?_)
    rw [show (1 + j) * 10 = 10 * (j + 1) from by ring]

/-- C3 (confirmed): for a response with a non-empty plugins list and an
in-bounds index, render_link returns exactly the anchor string whose
href is the fixed base URL, the record's slug and a trailing slash, and
whose text content is the record's full entity-decoded name (wrapped in
a b element); entities such as the ampersand entity are decoded.  As a
Lean function the rendering is pure and deterministic by construction. -/
theorem C3_render_link_formula (resp : PluginResponse) (i : Nat)
    (h : i < resp.plugins.length) :
    render_link resp i
      = some ("<a href=\"" ++ config_pluginurl ++ (resp.plugins.get ⟨i, h⟩).slug
          ++ "/\"><b>" ++ html_unescape (resp.plugins.get ⟨i, h⟩).name ++ "</b></a>")
    ∧ html_unescape "&amp;" = "&" := by
  refine ⟨?_, by decide⟩
  unfold render_link
  rw [List.getElem?_eq_getElem h]
  rfl

/-- C3 (witness): the rendering at a concrete one-record response whose
name carries an ampersand entity. -/
theorem C3_render_link_formula_witness :
    0 < demoAkismet.plugins.length
    ∧ render_link demoAkismet 0
        = some "<a href=\"https://de.wordpress.org/plugins/akismet/\"><b>Akismet & Co</b></a>" :=
  ⟨by decide, ((C3_render_link_formula demoAkismet 0 (by decide)).1).trans (by decide)⟩

/-- C4 (counterexample): validate_arguments does not strip surrounding
whitespace: the argument "  Akismet " yields "  akismet ", which
differs from the SearchTerm produced by "akismet". -/
theorem C4_no_strip_counterexample :
    validate_arguments ["  Akismet "] = ArgResult.ok "  akismet "
    ∧ "  akismet " ≠ "akismet"
    ∧ validate_arguments ["  Akismet "] ≠ validate_arguments ["akismet"] := by decide

/-- C4 (amended): for an invocation with one positional argument (any
token that does not look like an option flag), validate_arguments
returns the argument lower-cased, with no whitespace trimming. -/
theorem C4_lowercases_without_strip (name : String)
    (h : looksLikeOption name = false) :
    validate_arguments [name] = ArgResult.ok (str_lower name) := by
  have h1 : (name == "-v") = false := by
    refine beq_eq_false_iff_ne.mpr (fun e => ?_)
    rw [e] at h; exact absurd h (by decide)
  have h2 : (name == "--version") = false := by
    refine beq_eq_false_iff_ne.mpr (fun e => ?_)
    rw [e] at h; exact absurd h (by decide)
  have h3 : (name == "-h") = false := by
    refine beq_eq_false_iff_ne.mpr (fun e => ?_)
    rw [e] at h; exact absurd h (by decide)
  have h4 : (name == "--help") = false := by
    refine beq_eq_false_iff_ne.mpr (fun e => ?_)
    rw [e] at h; exact absurd h (by decide)
  simp [validate_arguments, parse_args, h, h1, h2, h3, h4]

/-- C4 (witness): the amended statement at the argument "  Akismet ". -/
theorem C4_lowercases_without_strip_witness :
    validate_arguments ["  Akismet "] = ArgResult.ok "  akismet " :=
  (C4_lowercases_without_strip "  Akismet " (by decide)).trans (by decide)

/-- C5 (counterexample): a missing positional argument makes argparse
exit with status 2, not 1 as claimed; and the version flag exits with
status 0 although no link was produced, contradicting the claimed
equivalence of exit 0 and link production. -/
theorem C5_exit_codes_counterexample :
    run_main [] NetOutcome.timeoutError [] true = some ⟨2, none, false⟩
    ∧ (2 : Nat) ≠ 1
    ∧ run_main ["-v"] NetOutcome.timeoutError [] true = some ⟨0, none, false⟩ := by
  decide

/-- C5 (amended): a completed run exits 0 exactly when it produced a
link or argument parsing ended the process with status 0 (version or
help flag); it exits 1 with no link on network failure and on "q"
abort; and argument validation failure exits with argparse's usage
status 2, before any network or interactive step. -/
theorem C5_exit_codes_amended :
    (∀ argv net inputs clip r, run_main argv net inputs clip = some r →
      (r.exitCode = 0 ↔ (r.link.isSome = true ∨ parse_args argv = ArgResult.exitWith 0)))
    ∧ (∀ argv t net inputs clip, validate_arguments argv = ArgResult.ok t →
        isNetFailure net = true → run_main argv net inputs clip = some ⟨1, none, false⟩)
    ∧ (∀ argv t resp inputs clip, validate_arguments argv = ArgResult.ok t →
        let_user_select resp inputs = some SelResult.aborted →
        run_main argv (NetOutcome.success resp) inputs clip = some ⟨1, none, false⟩)
    ∧ (∀ argv net inputs clip, validate_arguments argv = ArgResult.exitWith 2 →
        run_main argv net inputs clip = some ⟨2, none, false⟩) :=
  ⟨run_main_exit_zero_iff, run_main_netfail, run_main_abort,
   fun argv net inputs clip h => run_main_validate_exit argv net inputs clip 2 h⟩

/-- C5 (witness): the amended statement exercised on concrete runs: a
timeout, a "q" abort, a missing argument, and a successful run whose
exit status 0 matches its produced link. -/
theorem C5_exit_codes_amended_witness :
    run_main ["akismet"] NetOutcome.timeoutError [] true = some ⟨1, none, false⟩
    ∧ run_main ["akismet"] (NetOutcome.success demo5) ["q"] true = some ⟨1, none, false⟩
    ∧ run_main [] NetOutcome.timeoutError [] true = some ⟨2, none, false⟩
    ∧ ((⟨0, some "<a href=\"https://de.wordpress.org/plugins/akismet/\"><b>Akismet & Co</b></a>",
          true⟩ : RunResult).exitCode = 0
        ↔ ((⟨0, some "<a href=\"https://de.wordpress.org/plugins/akismet/\"><b>Akismet & Co</b></a>",
            true⟩ : RunResult).link.isSome = true
          ∨ parse_args ["akismet"] = ArgResult.exitWith 0)) :=
  ⟨C5_exit_codes_amended.2.1 ["akismet"] "akismet" NetOutcome.timeoutError [] true
      (by decide) (by decide),
   C5_exit_codes_amended.2.2.1 ["akismet"] "akismet" demo5 ["q"] true
      (by decide) (by decide),
   C5_exit_codes_amended.2.2.2 [] NetOutcome.timeoutError [] true (by decide),
   C5_exit_codes_amended.1 ["akismet"] (NetOutcome.success demoAkismet) [""] true
      _ (by decide)⟩

/-- C6 (confirmed): a stripped input consisting of decimal digits whose
value lies in [1, total count] leaves the loop selecting that value
minus one; a digit string out of that range is rejected with the
invalid-input notice and the loop keeps prompting on the remaining
inputs instead of selecting or crashing. -/
theorem C6_numeric_selection (pl : PluginResponse) (p : Nat) (raw : String)
    (rest : List String) (hd : str_isdigit (str_strip raw) = true) :
    (1 ≤ py_int (str_strip raw) ∧ py_int (str_strip raw) ≤ pl.plugins.length →
      select_step pl p raw = StepOut.select (py_int (str_strip raw) - 1)
      ∧ runSelect pl p (raw :: rest)
          = some (SelResult.selected (py_int (str_strip raw) - 1)))
    ∧ (¬(1 ≤ py_int (str_strip raw) ∧ py_int (str_strip raw) ≤ pl.plugins.length) →
      select_step pl p raw = StepOut.invalid (p + 1)
      ∧ runSelect pl p (raw :: rest) = runSelect pl (p + 1) rest) := by
  obtain ⟨hne, hnn, hnq⟩ := str_isdigit_ne_commands _ hd
  constructor
  · intro hin
    have hsel : select_step pl p raw = StepOut.select (py_int (str_strip raw) - 1) := by
      simp only [select_step]
      rw [if_pos ⟨hd, hin.1, hin.2⟩]
    exact ⟨hsel, by simp [runSelect, hsel]⟩
  · intro hout
    have hsel : select_step pl p raw = StepOut.invalid (p + 1) := by
      simp only [select_step]
      rw [if_neg (fun hc => hout ⟨hc.2.1, hc.2.2⟩)]
      rw [if_neg hne, if_neg hnn, if_neg hnq]
    exact ⟨hsel, by simp [runSelect, hsel]⟩

/-- C6 (witness): with 5 plugins, input "3" selects index 2 and input
"999" is rejected and re-prompts. -/
theorem C6_numeric_selection_witness :
    runSelect demo5 1 ["3"] = some (SelResult.selected 2)
    ∧ select_step demo5 1 "999" = StepOut.invalid 2 :=
  ⟨((C6_numeric_selection demo5 1 "3" [] (by decide)).1 (by decide)).2,
   ((C6_numeric_selection demo5 1 "999" [] (by decide)).2 (by decide)).1⟩

/-- C7 (confirmed): for a non-empty plugin list, empty input at any
prompt (any pass counter) leaves the loop selecting index 0, the first
result. -/
theorem C7_empty_input_selects_first (pl : PluginResponse) (p : Nat)
    (rest : List String) (h : 0 < pl.plugins.length) :
    select_step pl p "" = StepOut.select 0
    ∧ runSelect pl p ("" :: rest) = some (SelResult.selected 0) := by
  refine ⟨select_step_empty pl p, ?_⟩
  simp [runSelect, select_step_empty pl p]

/-- C7 (witness): empty input at pass counter 3 on a 5-plugin list. -/
theorem C7_empty_input_selects_first_witness :
    select_step demo5 3 "" = StepOut.select 0
    ∧ runSelect demo5 3 [""] = some (SelResult.selected 0) :=
  C7_empty_input_selects_first demo5 3 [] (by decide)

/-- C8 (confirmed): the listing of the window [start, stop) has exactly
min(stop, length) − start entries (clamped at zero by natural
subtraction); the k-th entry line is the 1-based ordinal start + 1 + k
right-aligned to width 2, a space, and the entity-decoded name — in
full when at most 60 characters, otherwise its first 60 characters
followed by the source's ellipsis marker — and the decoded displayed
name never exceeds 60 characters. -/
theorem C8_list_plugins_shape (jsonlist : PluginResponse) (start stop : Nat)
    (h : start ≤ stop) :
    (pluginLines (start + 1) (pySlice jsonlist.plugins start stop)).length
        = min stop jsonlist.plugins.length - start
    ∧ list_plugins jsonlist start stop
        = "\n" ++ concatLines (pluginLines (start + 1) (pySlice jsonlist.plugins start stop))
    ∧ (∀ k p, (pySlice jsonlist.plugins start stop)[k]? = some p →
        (pluginLines (start + 1) (pySlice jsonlist.plugins start stop))[k]?
            = some (entryLine (start + 1 + k) p.name)
        ∧ (p.name.length > 60 →
            entryLine (start + 1 + k) p.name
              = rjust2 (toString (start + 1 + k)) ++ " "
                ++ html_unescape (str_take p.name 60) ++ " â€¦\n"
            ∧ (html_unescape (str_take p.name 60)).length ≤ 60)
        ∧ (p.name.length ≤ 60 →
            entryLine (start + 1 + k) p.name
              = rjust2 (toString (start + 1 + k)) ++ " " ++ html_unescape p.name ++ "\n"
            ∧ (html_unescape p.name).length ≤ 60)) := by
  refine ⟨?_, rfl, ?_⟩
  · rw [pluginLines_length]
    simp [pySlice, List.length_take]
  · intro k p hk
    refine ⟨?_, ?_, ?_⟩
    · rw [pluginLines_getElem, hk]
      rfl
    · intro hgt
      refine ⟨by simp [entryLine, hgt], ?_⟩
      calc (html_unescape (str_take p.name 60)).length
          ≤ (str_take p.name 60).length := html_unescape_length _
        _ ≤ 60 := by
            show (p.name.data.take 60).length ≤ 60
            rw [List.length_take]
            exact Nat.min_le_left _ _
    · intro hle
      refine ⟨?_, Nat.le_trans (html_unescape_length _) hle⟩
      simp only [entryLine]
      rw [if_neg (by omega)]

/-- C8 (witness): the shape statement at a two-record response holding
a 61-character name, over the initial window. -/
theorem C8_list_plugins_shape_witness :
    (0 : Nat) ≤ 10
    ∧ (pluginLines (0 + 1) (pySlice demoC8.plugins 0 10)).length
        = min 10 demoC8.plugins.length - 0
    ∧ list_plugins demoC8 0 10
        = "\n" ++ concatLines (pluginLines (0 + 1) (pySlice demoC8.plugins 0 10)) :=
  ⟨by decide, (C8_list_plugins_shape demoC8 0 10 (by decide)).1,
   (C8_list_plugins_shape demoC8 0 10 (by decide)).2.1⟩

/-- C9 (confirmed): every failing network outcome makes request_plugins
exit with status 1 after printing a nonempty diagnostic (there is no
retry: the run performs a single request), a successful outcome returns
the parsed response unchanged, and a run whose request fails exits 1
producing no link and no clipboard write. -/
theorem C9_network_failure_exits (searchterm : String) :
    (∀ net, isNetFailure net = true →
      ∃ msg, request_plugins searchterm net = Except.error (1, msg) ∧ msg ≠ "")
    ∧ (∀ resp, request_plugins searchterm (NetOutcome.success resp) = Except.ok resp)
    ∧ (∀ argv t net inputs clip, validate_arguments argv = ArgResult.ok t →
        isNetFailure net = true →
        run_main argv net inputs clip = some ⟨1, none, false⟩) := by
  refine ⟨?_, fun resp => rfl, run_main_netfail⟩
  intro net hn
  cases net with
  | httpError => exact ⟨"HTTP Error", rfl, by decide⟩
  | connError => exact ⟨"Error Connecting", rfl, by decide⟩
  | timeoutError => exact ⟨"Timeout Error", rfl, by decide⟩
  | otherError => exact ⟨"OOps: Something Else", rfl, by decide⟩
  | success resp => exact absurd hn (by simp [isNetFailure])

/-- C9 (witness): the statement exercised at the search term "akismet"
on a timeout and on a connection error. -/
theorem C9_network_failure_exits_witness :
    (∃ msg, request_plugins "akismet" NetOutcome.timeoutError = Except.error (1, msg)
        ∧ msg ≠ "")
    ∧ run_main ["akismet"] NetOutcome.connError [] false = some ⟨1, none, false⟩ :=
  ⟨(C9_network_failure_exits "akismet").1 NetOutcome.timeoutError (by decide),
   (C9_network_failure_exits "akismet").2.2 ["akismet"] "akismet" NetOutcome.connError
      [] false (by decide) (by decide)⟩

/-- C10 (confirmed): with an empty plugins list, empty input still
selects index 0 although the selection-index invariant 0 ≤ index <
length fails, the render_link lookup of entry 0 is out of bounds, and
the whole run crashes (interpreter exit status 1, no link) instead of
producing a link: the selection-to-link pipeline is not total for
zero-result searches. -/
theorem C10_zero_results_unsound :
    let_user_select emptyResp [""] = some (SelResult.selected 0)
    ∧ ¬(0 < emptyResp.plugins.length)
    ∧ render_link emptyResp 0 = none
    ∧ run_main ["akismet"] (NetOutcome.success emptyResp) [""] true
        = some ⟨1, none, false⟩ := by decide
